import Mathlib

/-!
Verification of the DevGear chat-request orchestration and fallback protocol
(`handleChat` and its helpers in `src/devgear/extension.js`), shallowly
embedded as pure Lean functions.  A chat turn is modelled as a function from
an environment (whether the webview is resolved, the stored and interactively
prompted API key, and the responses the network would return for the three
possible requests) to the ordered trace of actions the handler performs:
messages posted to the webview and outbound network requests.
-/

namespace DevGear

/-- Substring test on character lists: `leadsWith s p` holds when `p` is an
initial segment of `s`.  Used to model JavaScript `String.prototype.includes`. -/
def leadsWith : List Char → List Char → Bool
  | _, [] => true
  | [], _ :: _ => false
  | c :: cs, p :: ps => (c == p) && leadsWith cs ps

/-- `hasSub s p` holds when `p` occurs contiguously inside `s`. -/
def hasSub : List Char → List Char → Bool
  | [], p => p.isEmpty
  | c :: cs, p => leadsWith (c :: cs) p || hasSub cs p

/-- Model of JavaScript `s.includes(sub)`: `sub` occurs as a substring of `s`. -/
def strContains (s sub : String) : Bool :=
  hasSub s.data sub.data

/-- One text part of a generateContent candidate (`parts[i]`); the `text`
field may be absent. -/
structure Part where
  text : Option String
deriving DecidableEq

/-- The `content` object of a candidate; the `parts` array may be absent. -/
structure Content where
  parts : Option (List Part)
deriving DecidableEq

/-- One entry of the `candidates` array; `content` may be absent. -/
structure Candidate where
  content : Option Content
deriving DecidableEq

/-- Parsed JSON body of a generateContent response: an optional `error`
object (modelled by its `message` string) and an optional `candidates`
array, as consumed by `data.error` / `data.candidates?.[0]?...` in the code. -/
structure GenData where
  error : Option String
  candidates : Option (List Candidate)
deriving DecidableEq

/-- An HTTP response to a generateContent request: its status code, the raw
body text (used in `API Error` messages) and the parsed JSON body. -/
structure GenResp where
  status : Nat
  bodyText : String
  data : GenData
deriving DecidableEq

/-- `response.ok` of the fetch API: status in the range 200-299. -/
def respOk (status : Nat) : Bool :=
  decide (200 ≤ status) && decide (status < 300)

/-- The optional chain `data.candidates?.[0]?.content?.parts?.[0]?.text`. -/
def firstCandText (d : GenData) : Option String :=
  ((((d.candidates.bind List.head?).bind Candidate.content).bind
      Content.parts).bind List.head?).bind Part.text

/-- `data.candidates?.[0]?.content?.parts?.[0]?.text || 'No response received'`.
JavaScript `||` falls through on every falsy value, so an empty text string
also yields the placeholder. -/
def extractText (d : GenData) : String :=
  match firstCandText d with
  | some t => if t = "" then "No response received" else t
  | none => "No response received"

/-- Distinguished failures of a single generateContent call: a 404 signals
that the model was not found (carrying the attempted model id); every other
failure carries a provider message. -/
inductive SendErr where
  | modelNotFound (modelId : String)
  | apiError (msg : String)
deriving DecidableEq

/-- The message thrown for a non-2xx response:
`API Error: status - bodyText`. -/
def apiErrorText (r : GenResp) : String :=
  "API Error: " ++ toString r.status ++ " - " ++ r.bodyText

/-- Classification of the initial generateContent response (lines 147-185 of
the source): non-2xx with status 404 is the distinguished model-not-found
case; any other non-2xx status, or a 2xx body with an `error` field, is a
generic API error; otherwise the first candidate text (or placeholder) is
returned. -/
def send (modelId : String) (r : GenResp) : Except SendErr String :=
  if respOk r.status = true then
    match r.data.error with
    | some m => Except.error (SendErr.apiError m)
    | none => Except.ok (extractText r.data)
  else if r.status = 404 then Except.error (SendErr.modelNotFound modelId)
  else Except.error (SendErr.apiError (apiErrorText r))

/-- Classification of the retry generateContent response (lines 159-166):
any non-2xx status — a second 404 included — throws the generic
`API Error` message; a body with an `error` field throws its message. -/
def sendNoFallback (r : GenResp) : Except String String :=
  if respOk r.status = true then
    match r.data.error with
    | some m => Except.error m
    | none => Except.ok (extractText r.data)
  else Except.error (apiErrorText r)

/-- The outcome of the models-listing GET: a network-level failure, or a
response with a status and an optionally present `models` array (already
projected to the `name` strings). -/
inductive ModelsResp where
  | netFail
  | resp (status : Nat) (models : Option (List String))
deriving DecidableEq

/-- `getAvailableModels` (lines 71-86): returns the model names on a 2xx
response and the empty list on any failure (non-2xx status, missing `models`
array, or network error) — errors are logged, never raised. -/
def getAvailableModels : ModelsResp → List String
  | ModelsResp.netFail => []
  | ModelsResp.resp status models =>
    if respOk status = true then models.getD [] else []

/-- `models.find(m => m.includes(token)) || models[0]` (line 151), with the
preferred-family token abstracted as a parameter (the code fixes it to
`gemini-1.5`); `none` models the `No available models found` failure on an
empty sequence.  The `if m = ""` branch reproduces the `||` falsiness of an
empty found string. -/
def chooseFallback (token : String) (models : List String) : Option String :=
  match models with
  | [] => none
  | first :: _ =>
    match models.find? (fun m => strContains m token) with
    | some m => some (if m = "" then first else m)
    | none => some first

/-- The default model attempted first (line 132). -/
def defaultModel : String := "gemini-1.5-flash"

/-- The preferred family substring hard-coded in the fallback choice. -/
def preferredToken : String := "gemini-1.5"

/-- The message thrown when the model listing yields no usable model. -/
def noModelsMsg : String :=
  "No available models found. Please check your API key or region."

/-- The error message posted when no API key can be obtained (line 124). -/
def missingKeyMsg : String :=
  "API key is required. Set it in Settings or use the command \x22DevGear AI: Set Gemini API Key\x22."

/-- Events posted to the webview during a turn. -/
inductive Event where
  | loading (b : Bool)
  | response (msg : String)
  | error (msg : String)
deriving DecidableEq

/-- Outbound network requests a turn can make. -/
inductive Request where
  | generate (model : String)
  | listModels
deriving DecidableEq

/-- One step of a turn's observable trace: either a webview event or a
network request, in program order. -/
inductive Action where
  | emit (e : Event)
  | net (r : Request)
deriving DecidableEq

/-- JavaScript falsiness of an optional string: absent or empty. -/
def isFalsy : Option String → Bool
  | none => true
  | some s => s = ""

/-- The environment a single chat turn runs against: whether the webview is
resolved, the stored configuration key, the key the interactive prompt would
return, and the responses the network would give to each possible request. -/
structure Env where
  hasView : Bool
  storedKey : Option String
  promptKey : Option String
  firstResp : GenResp
  modelsResp : ModelsResp
  retryResp : GenResp
deriving DecidableEq

/-- An API key is available when the stored key is truthy or the prompt
returns a truthy key (lines 112-127). -/
def keyAvailable (env : Env) : Bool :=
  !(isFalsy env.storedKey && isFalsy env.promptKey)

/-- The inner try block (lines 138-190): the network requests made, and
either the response text or the pair of (model attempted when the error was
thrown, error message), mirroring line 192 where the wrap uses the current
value of the `model` variable. -/
def turnBody (env : Env) : List Action × Except (String × String) String :=
  match send defaultModel env.firstResp with
  | Except.ok text => ([Action.net (Request.generate defaultModel)], Except.ok text)
  | Except.error (SendErr.apiError msg) =>
    ([Action.net (Request.generate defaultModel)], Except.error (defaultModel, msg))
  | Except.error (SendErr.modelNotFound _) =>
    match chooseFallback preferredToken (getAvailableModels env.modelsResp) with
    | none =>
      ([Action.net (Request.generate defaultModel), Action.net Request.listModels],
        Except.error (defaultModel, noModelsMsg))
    | some fb =>
      match sendNoFallback env.retryResp with
      | Except.ok text =>
        ([Action.net (Request.generate defaultModel), Action.net Request.listModels,
          Action.net (Request.generate fb)], Except.ok text)
      | Except.error msg =>
        ([Action.net (Request.generate defaultModel), Action.net Request.listModels,
          Action.net (Request.generate fb)], Except.error (fb, msg))

/-- The envelope applied at line 192 plus the outer `Error: ` prefix of the
posted error message (line 198). -/
def wrapMsg (model msg : String) : String :=
  "Error: " ++ ("Failed with model " ++ model ++ ": " ++ msg)

/-- The observable result of a turn: its action trace and whether the stored
configuration was updated with a freshly prompted key. -/
structure TurnOut where
  trace : List Action
  configUpdated : Bool
deriving DecidableEq

/-- `handleChat` (lines 103-203): no-op when the view is unresolved; posts
`loading true`, resolves the key (aborting with an error when none is
available), runs the turn body, posts exactly one `response` or wrapped
`error`, and posts `loading false` in the `finally` block on every path. -/
def handleChat (env : Env) : TurnOut :=
  if env.hasView = true then
    if keyAvailable env = true then
      match turnBody env with
      | (ns, Except.ok text) =>
        ⟨(Action.emit (Event.loading true) :: ns ++ [Action.emit (Event.response text)]) ++
          [Action.emit (Event.loading false)], isFalsy env.storedKey⟩
      | (ns, Except.error (m, msg)) =>
        ⟨(Action.emit (Event.loading true) :: ns ++ [Action.emit (Event.error (wrapMsg m msg))]) ++
          [Action.emit (Event.loading false)], isFalsy env.storedKey⟩
    else
      ⟨[Action.emit (Event.loading true), Action.emit (Event.error missingKeyMsg)] ++
        [Action.emit (Event.loading false)], false⟩
  else ⟨[], false⟩

/-- The terminal event carried by an action, if any: a `response` or `error`
emission. -/
def terminalOf : Action → Option Event
  | Action.emit (Event.response m) => some (Event.response m)
  | Action.emit (Event.error m) => some (Event.error m)
  | _ => none

/-- The terminal (`response` or `error`) events of a turn, in order. -/
def TurnOut.terminals (o : TurnOut) : List Event :=
  o.trace.filterMap terminalOf

/-- Whether an action is a generateContent request. -/
def Action.isGenReq : Action → Bool
  | Action.net (Request.generate _) => true
  | _ => false

/-- Whether an action is the `loading false` emission. -/
def Action.isLoadingOff : Action → Bool
  | Action.emit (Event.loading false) => true
  | _ => false

/-- A 200 response whose first candidate text is the empty string. -/
def emptyTextResp : GenResp :=
  ⟨200, "", ⟨none, some [⟨some ⟨some [⟨some ""⟩]⟩⟩]⟩⟩

/-- A 200 response answering with the text `ok`. -/
def okResp : GenResp :=
  ⟨200, "", ⟨none, some [⟨some ⟨some [⟨some "ok"⟩]⟩⟩]⟩⟩

/-- A 404 response. -/
def resp404 : GenResp := ⟨404, "model not found", ⟨none, none⟩⟩

/-- A 500 response with body text `boom`. -/
def resp500 : GenResp := ⟨500, "boom", ⟨none, none⟩⟩

/-- A 200 response with no `candidates` field at all. -/
def missingCandResp : GenResp := ⟨200, "", ⟨none, none⟩⟩

/-- Environment: default model 404, a fallback is listed, the retry fails. -/
def envRetryFail : Env :=
  ⟨true, some "key", none, resp404,
    ModelsResp.resp 200 (some ["models/gemini-1.0-pro", "models/gemini-1.5-pro"]), resp500⟩

/-- Environment: the first generateContent call succeeds. -/
def envOk : Env := ⟨true, some "key", none, okResp, ModelsResp.netFail, okResp⟩

/-- Environment: the first call returns 200 with an embedded error object. -/
def envApiErr : Env :=
  ⟨true, some "key", none, ⟨200, "", ⟨some "quota exceeded", none⟩⟩, ModelsResp.netFail, okResp⟩

/-- Environment: no stored key and the interactive prompt yields none. -/
def envNoKey : Env := ⟨true, none, none, okResp, ModelsResp.netFail, okResp⟩

/-- Environment: the webview has not been resolved. -/
def envNoView : Env := ⟨false, some "key", none, okResp, ModelsResp.netFail, okResp⟩

/-! ## Helper lemmas -/

/-- A 404 status is classified as the distinguished model-not-found error. -/
theorem send_of_404 (modelId : String) (r : GenResp) (h : r.status = 404) :
    send modelId r = Except.error (SendErr.modelNotFound modelId) := by
  simp [send, respOk, h]

/-- Only a 404 status produces the model-not-found classification. -/
theorem status_404_of_mnf (modelId m : String) (r : GenResp)
    (h : send modelId r = Except.error (SendErr.modelNotFound m)) : r.status = 404 := by
  unfold send at h
  split at h
  · split at h <;> simp_all
  · split at h
    · assumption
    · simp_all

theorem turnBody_ok (env : Env) (text : String)
    (h : send defaultModel env.firstResp = Except.ok text) :
    turnBody env = ([Action.net (Request.generate defaultModel)], Except.ok text) := by
  simp [turnBody, h]

theorem turnBody_apiErr (env : Env) (msg : String)
    (h : send defaultModel env.firstResp = Except.error (SendErr.apiError msg)) :
    turnBody env =
      ([Action.net (Request.generate defaultModel)], Except.error (defaultModel, msg)) := by
  simp [turnBody, h]

theorem turnBody_nomodels (env : Env) (mid : String)
    (h : send defaultModel env.firstResp = Except.error (SendErr.modelNotFound mid))
    (hc : chooseFallback preferredToken (getAvailableModels env.modelsResp) = none) :
    turnBody env =
      ([Action.net (Request.generate defaultModel), Action.net Request.listModels],
        Except.error (defaultModel, noModelsMsg)) := by
  simp [turnBody, h, hc]

theorem turnBody_retry_ok (env : Env) (mid fb text : String)
    (h : send defaultModel env.firstResp = Except.error (SendErr.modelNotFound mid))
    (hc : chooseFallback preferredToken (getAvailableModels env.modelsResp) = some fb)
    (hr : sendNoFallback env.retryResp = Except.ok text) :
    turnBody env =
      ([Action.net (Request.generate defaultModel), Action.net Request.listModels,
        Action.net (Request.generate fb)], Except.ok text) := by
  simp [turnBody, h, hc, hr]

theorem turnBody_retry_err (env : Env) (mid fb msg : String)
    (h : send defaultModel env.firstResp = Except.error (SendErr.modelNotFound mid))
    (hc : chooseFallback preferredToken (getAvailableModels env.modelsResp) = some fb)
    (hr : sendNoFallback env.retryResp = Except.error msg) :
    turnBody env =
      ([Action.net (Request.generate defaultModel), Action.net Request.listModels,
        Action.net (Request.generate fb)], Except.error (fb, msg)) := by
  simp [turnBody, h, hc, hr]

theorem handleChat_noview (env : Env) (hv : env.hasView = false) :
    handleChat env = ⟨[], false⟩ := by
  simp [handleChat, hv]

theorem handleChat_nokey (env : Env) (hv : env.hasView = true)
    (hk : keyAvailable env = false) :
    handleChat env =
      ⟨[Action.emit (Event.loading true), Action.emit (Event.error missingKeyMsg)] ++
        [Action.emit (Event.loading false)], false⟩ := by
  simp [handleChat, hv, hk]

theorem handleChat_ok (env : Env) (hv : env.hasView = true)
    (hk : keyAvailable env = true) (ns : List Action) (text : String)
    (hb : turnBody env = (ns, Except.ok text)) :
    handleChat env =
      ⟨(Action.emit (Event.loading true) :: ns ++ [Action.emit (Event.response text)]) ++
        [Action.emit (Event.loading false)], isFalsy env.storedKey⟩ := by
  simp [handleChat, hv, hk, hb]

theorem handleChat_err (env : Env) (hv : env.hasView = true)
    (hk : keyAvailable env = true) (ns : List Action) (m msg : String)
    (hb : turnBody env = (ns, Except.error (m, msg))) :
    handleChat env =
      ⟨(Action.emit (Event.loading true) :: ns ++ [Action.emit (Event.error (wrapMsg m msg))]) ++
        [Action.emit (Event.loading false)], isFalsy env.storedKey⟩ := by
  simp [handleChat, hv, hk, hb]

/-- `find?` returns the first element satisfying the predicate. -/
theorem findFirstMatch {α : Type} (p : α → Bool) (pre : List α) (x : α) (suf : List α)
    (hpre : ∀ y ∈ pre, p y = false) (hx : p x = true) :
    List.find? p (pre ++ x :: suf) = some x := by
  induction pre with
  | nil => simp [List.find?_cons_of_pos, hx]
  | cons a as ih =>
    have ha : p a = false := hpre a (by simp)
    rw [List.cons_append, List.find?_cons_of_neg _ (by simp [ha])]
    exact ih (fun y hy => hpre y (by simp [hy]))

/-- Every character list has the empty list as a substring. -/
theorem hasSub_nil_right (l : List Char) : hasSub l [] = true := by
  cases l <;> simp [hasSub, leadsWith]

/-! ## Claim theorems -/

/-- C10: if the chat event is handled before the webview view has been
resolved, `handleChat` returns immediately: the trace is empty (no loading,
response, error, or network action) and the configuration is untouched. -/
theorem no_view_silent (env : Env) (hv : env.hasView = false) :
    (handleChat env).trace = [] ∧ (handleChat env).configUpdated = false := by
  rw [handleChat_noview env hv]
  exact ⟨rfl, rfl⟩

theorem no_view_silent_witness :
    (handleChat envNoView).trace = [] ∧ (handleChat envNoView).configUpdated = false :=
  no_view_silent envNoView rfl

/-- C9: when no API key is stored and the interactive prompt yields none,
the turn aborts with a user-visible error event, no network request of any
kind appears in the trace, and the stored configuration is not updated. -/
theorem missing_key_aborts (env : Env) (hv : env.hasView = true)
    (hs : isFalsy env.storedKey = true) (hp : isFalsy env.promptKey = true) :
    TurnOut.terminals (handleChat env) = [Event.error missingKeyMsg] ∧
    (∀ r, Action.net r ∉ (handleChat env).trace) ∧
    (handleChat env).configUpdated = false := by
  have hk : keyAvailable env = false := by simp [keyAvailable, hs, hp]
  rw [handleChat_nokey env hv hk]
  refine ⟨by simp [TurnOut.terminals, terminalOf], ?_, rfl⟩
  intro r
  simp

theorem missing_key_aborts_witness :
    TurnOut.terminals (handleChat envNoKey) = [Event.error missingKeyMsg] ∧
    (∀ r, Action.net r ∉ (handleChat envNoKey).trace) ∧
    (handleChat envNoKey).configUpdated = false :=
  missing_key_aborts envNoKey rfl rfl rfl

/-- C3: `send` classifies a 404 status as the distinguished model-not-found
error carrying the attempted model id; any other non-2xx status yields a
generic API error built from the status and body, and a 2xx body with an
`error` object yields a generic API error with the provider message; and the
fallback path (a models-listing request) is only ever taken when the first
response has status 404. -/
theorem send_error_classification (modelId : String) (r : GenResp) :
    (r.status = 404 → send modelId r = Except.error (SendErr.modelNotFound modelId)) ∧
    (respOk r.status = false → r.status ≠ 404 →
      send modelId r = Except.error (SendErr.apiError (apiErrorText r))) ∧
    (∀ e, respOk r.status = true → r.data.error = some e →
      send modelId r = Except.error (SendErr.apiError e)) ∧
    (∀ env : Env, Action.net Request.listModels ∈ (handleChat env).trace →
      env.firstResp.status = 404) := by
  refine ⟨fun h => send_of_404 modelId r h, fun hok h404 => by simp [send, hok, h404],
    fun e hok he => by simp [send, hok, he], ?_⟩
  intro env hmem
  cases hv : env.hasView with
  | false => rw [handleChat_noview env hv] at hmem; simp at hmem
  | true =>
    cases hk : keyAvailable env with
    | false => rw [handleChat_nokey env hv hk] at hmem; simp at hmem
    | true =>
      cases hsend : send defaultModel env.firstResp with
      | ok text =>
        rw [handleChat_ok env hv hk _ _ (turnBody_ok env text hsend)] at hmem
        simp at hmem
      | error err =>
        cases err with
        | modelNotFound mid => exact status_404_of_mnf defaultModel mid env.firstResp hsend
        | apiError msg =>
          rw [handleChat_err env hv hk _ _ _ (turnBody_apiErr env msg hsend)] at hmem
          simp at hmem

theorem send_error_classification_witness :
    send defaultModel resp404 = Except.error (SendErr.modelNotFound defaultModel) :=
  (send_error_classification defaultModel resp404).1 rfl

/-- C4 counterexample: a 200 response with no error field whose first
candidate has the first text part `""` is not returned verbatim — the code's
`|| 'No response received'` treats the empty string as falsy and substitutes
the placeholder instead. -/
theorem send_empty_text_counterexample :
    emptyTextResp.status = 200 ∧ emptyTextResp.data.error = none ∧
    firstCandText emptyTextResp.data = some "" ∧
    send defaultModel emptyTextResp = Except.ok "No response received" ∧
    send defaultModel emptyTextResp ≠ Except.ok "" := by
  refine ⟨rfl, rfl, rfl, rfl, ?_⟩
  intro h
  rw [show send defaultModel emptyTextResp = Except.ok "No response received" from rfl] at h
  exact absurd (Except.ok.inj h) (by decide)

/-- C4 (amended): for every 200 response whose JSON body has no error field
and whose first candidate carries a non-empty first text part, `send`
returns that text verbatim. -/
theorem send_nonempty_text_verbatim (modelId : String) (r : GenResp) (t : String)
    (h200 : r.status = 200) (herr : r.data.error = none)
    (htext : firstCandText r.data = some t) (hne : t ≠ "") :
    send modelId r = Except.ok t := by
  simp [send, respOk, h200, herr, extractText, htext, hne]

theorem send_nonempty_text_verbatim_witness :
    send defaultModel okResp = Except.ok "ok" :=
  send_nonempty_text_verbatim defaultModel okResp "ok" rfl rfl rfl (by decide)

/-- C5: for every 200 response without an error field in which the
candidates array, the candidate content, the parts array, or the text part
is missing, `send` returns the literal placeholder `No response received`
(and, being total, never throws). -/
theorem send_missing_parts_placeholder (modelId : String) (r : GenResp)
    (h200 : r.status = 200) (herr : r.data.error = none)
    (hmiss : r.data.candidates = none ∨ r.data.candidates = some [] ∨
      (∃ c cs, r.data.candidates = some (c :: cs) ∧
        (c.content = none ∨ ∃ ct, c.content = some ct ∧
          (ct.parts = none ∨ ct.parts = some [] ∨
            ∃ p ps, ct.parts = some (p :: ps) ∧ p.text = none)))) :
    send modelId r = Except.ok "No response received" := by
  have hnone : firstCandText r.data = none := by
    rcases hmiss with h | h | ⟨c, cs, hc, hcc⟩
    · simp [firstCandText, h]
    · simp [firstCandText, h]
    · rcases hcc with h | ⟨ct, hct, hpp⟩
      · simp [firstCandText, hc, h]
      · rcases hpp with h | h | ⟨p, ps, hp, ht⟩
        · simp [firstCandText, hc, hct, h]
        · simp [firstCandText, hc, hct, h]
        · simp [firstCandText, hc, hct, hp, ht]
  simp [send, respOk, h200, herr, extractText, hnone]

theorem send_missing_parts_placeholder_witness :
    send defaultModel missingCandResp = Except.ok "No response received" :=
  send_missing_parts_placeholder defaultModel missingCandResp rfl rfl (Or.inl rfl)

/-- C6: once the view is initialized, every chat turn posts exactly one
terminal outcome event — one `response` or one `error`, never both and never
more than one — on every branch: success, fallback success, fallback
failure, no-models failure, API error, and missing credential. -/
theorem handleChat_one_terminal (env : Env) (hv : env.hasView = true) :
    (TurnOut.terminals (handleChat env)).length = 1 := by
  cases hk : keyAvailable env with
  | false =>
    rw [handleChat_nokey env hv hk]
    simp [TurnOut.terminals, terminalOf]
  | true =>
    cases hsend : send defaultModel env.firstResp with
    | ok text =>
      rw [handleChat_ok env hv hk _ _ (turnBody_ok env text hsend)]
      simp [TurnOut.terminals, terminalOf]
    | error err =>
      cases err with
      | apiError msg =>
        rw [handleChat_err env hv hk _ _ _ (turnBody_apiErr env msg hsend)]
        simp [TurnOut.terminals, terminalOf]
      | modelNotFound mid =>
        cases hc : chooseFallback preferredToken (getAvailableModels env.modelsResp) with
        | none =>
          rw [handleChat_err env hv hk _ _ _ (turnBody_nomodels env mid hsend hc)]
          simp [TurnOut.terminals, terminalOf]
        | some fb =>
          cases hr : sendNoFallback env.retryResp with
          | ok text2 =>
            rw [handleChat_ok env hv hk _ _ (turnBody_retry_ok env mid fb text2 hsend hc hr)]
            simp [TurnOut.terminals, terminalOf]
          | error msg2 =>
            rw [handleChat_err env hv hk _ _ _ (turnBody_retry_err env mid fb msg2 hsend hc hr)]
            simp [TurnOut.terminals, terminalOf]

theorem handleChat_one_terminal_witness :
    (TurnOut.terminals (handleChat envOk)).length = 1 :=
  handleChat_one_terminal envOk rfl

/-- C7: once the view is initialized, the very first action of every turn is
the `loading true` emission (so it precedes every network request), exactly
one `loading false` is emitted, and it is the final action of the turn on
every branch. -/
theorem loading_wraps_turn (env : Env) (hv : env.hasView = true) :
    (∃ rest, (handleChat env).trace = Action.emit (Event.loading true) :: rest) ∧
    (handleChat env).trace.countP Action.isLoadingOff = 1 ∧
    (handleChat env).trace.getLast? = some (Action.emit (Event.loading false)) := by
  cases hk : keyAvailable env with
  | false =>
    rw [handleChat_nokey env hv hk]
    exact ⟨⟨_, rfl⟩, by simp [Action.isLoadingOff], List.getLast?_concat _⟩
  | true =>
    cases hsend : send defaultModel env.firstResp with
    | ok text =>
      rw [handleChat_ok env hv hk _ _ (turnBody_ok env text hsend)]
      exact ⟨⟨_, rfl⟩, by simp [Action.isLoadingOff], List.getLast?_concat _⟩
    | error err =>
      cases err with
      | apiError msg =>
        rw [handleChat_err env hv hk _ _ _ (turnBody_apiErr env msg hsend)]
        exact ⟨⟨_, rfl⟩, by simp [Action.isLoadingOff], List.getLast?_concat _⟩
      | modelNotFound mid =>
        cases hc : chooseFallback preferredToken (getAvailableModels env.modelsResp) with
        | none =>
          rw [handleChat_err env hv hk _ _ _ (turnBody_nomodels env mid hsend hc)]
          exact ⟨⟨_, rfl⟩, by simp [Action.isLoadingOff], List.getLast?_concat _⟩
        | some fb =>
          cases hr : sendNoFallback env.retryResp with
          | ok text2 =>
            rw [handleChat_ok env hv hk _ _ (turnBody_retry_ok env mid fb text2 hsend hc hr)]
            exact ⟨⟨_, rfl⟩, by simp [Action.isLoadingOff], List.getLast?_concat _⟩
          | error msg2 =>
            rw [handleChat_err env hv hk _ _ _
              (turnBody_retry_err env mid fb msg2 hsend hc hr)]
            exact ⟨⟨_, rfl⟩, by simp [Action.isLoadingOff], List.getLast?_concat _⟩

theorem loading_wraps_turn_witness :
    (∃ rest, (handleChat envOk).trace = Action.emit (Event.loading true) :: rest) ∧
    (handleChat envOk).trace.countP Action.isLoadingOff = 1 ∧
    (handleChat envOk).trace.getLast? = some (Action.emit (Event.loading false)) :=
  loading_wraps_turn envOk rfl

/-- C8: every failure of the Model Client request or of the Fallback
Resolver is caught at the relay boundary and surfaced as the single terminal
error event of the turn, whose message carries the
`Failed with model {id}: {cause}` envelope (under the outer `Error: `
prefix of `wrapMsg`), where the id is the model being attempted when the
failure occurred: the default model for a first-call API error or an empty
model listing, and the chosen fallback model for a retry failure. -/
theorem error_envelope (env : Env) (hv : env.hasView = true)
    (hk : keyAvailable env = true) :
    (∀ msg, send defaultModel env.firstResp = Except.error (SendErr.apiError msg) →
      TurnOut.terminals (handleChat env) = [Event.error (wrapMsg defaultModel msg)]) ∧
    (∀ mid, send defaultModel env.firstResp = Except.error (SendErr.modelNotFound mid) →
      (chooseFallback preferredToken (getAvailableModels env.modelsResp) = none →
        TurnOut.terminals (handleChat env) = [Event.error (wrapMsg defaultModel noModelsMsg)]) ∧
      (∀ fb msg, chooseFallback preferredToken (getAvailableModels env.modelsResp) = some fb →
        sendNoFallback env.retryResp = Except.error msg →
        TurnOut.terminals (handleChat env) = [Event.error (wrapMsg fb msg)])) := by
  refine ⟨?_, ?_⟩
  · intro msg hsend
    rw [handleChat_err env hv hk _ _ _ (turnBody_apiErr env msg hsend)]
    simp [TurnOut.terminals, terminalOf]
  · intro mid hsend
    refine ⟨?_, ?_⟩
    · intro hc
      rw [handleChat_err env hv hk _ _ _ (turnBody_nomodels env mid hsend hc)]
      simp [TurnOut.terminals, terminalOf]
    · intro fb msg hc hr
      rw [handleChat_err env hv hk _ _ _ (turnBody_retry_err env mid fb msg hsend hc hr)]
      simp [TurnOut.terminals, terminalOf]

theorem error_envelope_witness :
    TurnOut.terminals (handleChat envApiErr) =
      [Event.error (wrapMsg defaultModel "quota exceeded")] :=
  (error_envelope envApiErr rfl rfl).1 "quota exceeded" rfl

/-- C1: in every turn whose initial request returns 404, at most one further
generateContent request (the single fallback retry) is ever issued —
unconditionally, whether the retry succeeds or fails — and when the retry
does not succeed (non-2xx status, another 404, an error body, or no model to
retry with) the turn's terminal outcome is a single error event, with no
further fallback attempt in the trace. -/
theorem single_fallback_retry (env : Env) (hv : env.hasView = true)
    (hk : keyAvailable env = true) (h404 : env.firstResp.status = 404) :
    (handleChat env).trace.countP Action.isGenReq ≤ 2 ∧
    ((∀ s, sendNoFallback env.retryResp ≠ Except.ok s) →
      ∃ m, TurnOut.terminals (handleChat env) = [Event.error m]) := by
  have hsend := send_of_404 defaultModel env.firstResp h404
  cases hc : chooseFallback preferredToken (getAvailableModels env.modelsResp) with
  | none =>
    rw [handleChat_err env hv hk _ _ _ (turnBody_nomodels env defaultModel hsend hc)]
    exact ⟨by simp [Action.isGenReq],
      fun _ => ⟨wrapMsg defaultModel noModelsMsg, by simp [TurnOut.terminals, terminalOf]⟩⟩
  | some fb =>
    cases hr : sendNoFallback env.retryResp with
    | ok text =>
      rw [handleChat_ok env hv hk _ _ (turnBody_retry_ok env defaultModel fb text hsend hc hr)]
      exact ⟨by simp [Action.isGenReq], fun hfail => absurd rfl (hfail text)⟩
    | error msg =>
      rw [handleChat_err env hv hk _ _ _
        (turnBody_retry_err env defaultModel fb msg hsend hc hr)]
      exact ⟨by simp [Action.isGenReq],
        fun _ => ⟨wrapMsg fb msg, by simp [TurnOut.terminals, terminalOf]⟩⟩

theorem single_fallback_retry_witness :
    (handleChat envRetryFail).trace.countP Action.isGenReq ≤ 2 ∧
    ∃ m, TurnOut.terminals (handleChat envRetryFail) = [Event.error m] :=
  ⟨(single_fallback_retry envRetryFail rfl rfl rfl).1,
    (single_fallback_retry envRetryFail rfl rfl rfl).2
      (fun s h => by simp [sendNoFallback, envRetryFail, resp500, respOk] at h)⟩

/-- C2: `chooseFallback` fails (returns `none`, which the turn turns into
the no-available-models error) on the empty sequence; on a non-empty
sequence it returns the first entry containing the preferred family
substring when one exists, and the first entry when none does; in
particular on `x-1.0, x-1.5, y-2.0` with token `1.5` it returns `x-1.5`. -/
theorem chooseFallback_correct (token : String) (ms : List String) :
    (ms = [] → chooseFallback token ms = none) ∧
    (∀ first rest, ms = first :: rest → (∀ y ∈ ms, strContains y token = false) →
      chooseFallback token ms = some first) ∧
    (∀ pre x suf, ms = pre ++ x :: suf → strContains x token = true →
      (∀ y ∈ pre, strContains y token = false) → chooseFallback token ms = some x) ∧
    chooseFallback "1.5" ["x-1.0", "x-1.5", "y-2.0"] = some "x-1.5" ∧
    (∀ env : Env, getAvailableModels env.modelsResp = [] →
      ∀ mid, send defaultModel env.firstResp = Except.error (SendErr.modelNotFound mid) →
      (turnBody env).2 = Except.error (defaultModel, noModelsMsg)) := by
  refine ⟨?_, ?_, ?_, ?_, ?_⟩
  · rintro rfl
    rfl
  · rintro first rest rfl hall
    have hfind : List.find? (fun m => strContains m token) (first :: rest) = none :=
      List.find?_eq_none.mpr (fun y hy => by simp [hall y hy])
    simp [chooseFallback, hfind]
  · rintro pre x suf rfl hx hpre
    have hfind : List.find? (fun m => strContains m token) (pre ++ x :: suf) = some x :=
      findFirstMatch _ pre x suf hpre hx
    cases pre with
    | nil =>
      simp only [List.nil_append] at hfind ⊢
      simp [chooseFallback, hfind]
    | cons a as =>
      simp only [List.cons_append] at hfind ⊢
      simp only [chooseFallback, hfind]
      by_cases hxe : x = ""
      · exfalso
        have htok : token.data = [] := by
          have h0 : hasSub ([] : List Char) token.data = true := by
            rw [hxe] at hx
            exact hx
          cases htd : token.data with
          | nil => rfl
          | cons c cs => rw [htd] at h0; simp [hasSub] at h0
        have hcon : strContains a token = true := by
          simp [strContains, htok, hasSub_nil_right]
        have ha := hpre a (by simp)
        rw [ha] at hcon
        exact Bool.noConfusion hcon
      · simp [hxe]
  · rfl
  · intro env hml mid hsend
    simp [turnBody, hsend, hml, chooseFallback]

theorem chooseFallback_correct_witness :
    chooseFallback "1.5" ([] : List String) = none :=
  (chooseFallback_correct "1.5" []).1 rfl

end DevGear
